import Mathlib

/-!
Shallow embedding of the mailgun-go message module (`messages.go`):
the `Message` builder, its validation (`validateMessage`,
`validateStringList`), the `Send` operation (validate, serialize into a
form-data payload, one transport exchange, response interpretation) and
`AddVariable` (JSON serialization at add time).

Modelling conventions:
- Go slices are modelled as `Option (List String)`: `none` is a nil
  slice, `some l` a non-nil slice with elements `l` (so `some []` is the
  non-nil empty slice).  Go's `len` on a nil slice is 0 (`optLen`), and
  ranging over a nil slice performs no iterations (`optList`).
- Go maps (`headers`, `variables`) are modelled as association lists
  wrapped in `Option` to keep the nil / initialized distinction that
  the source checks (`m.headers == nil`, lazy `make`).  Go map
  assignment is `mapInsert`, map lookup is `mapLookup`.
- The HTTP transport (`simplehttp`) is external: `Send` receives it as
  a function from the serialized payload to either a transport error or
  the already-JSON-decoded two-field response.  `Send` additionally
  returns the post-state of the message and the list of payloads it
  handed to the transport, so that frame and no-transmission properties
  are expressible; the source never writes to `*message`, hence the
  post-state equals the input.
- `time.Time` is external; `GoTime` carries only its rendering under
  the fixed layout `"Mon, 2 Jan 2006 15:04:05 MST"`, which is all the
  source uses of it.
- `encoding/json.Marshal` is external; `jsonMarshal` models it on a
  small universe `GoValue` of caller-supplied values, including an
  unserializable one (Go returns an UnsupportedTypeError for such
  values).
-/

/-- Go error values are modelled by their message string. -/
abbrev GoError := String

/-- Rendering of an external `time.Time` under the one layout the source
uses, `"Mon, 2 Jan 2006 15:04:05 MST"`. -/
structure GoTime where
  rfc1123 : String
deriving DecidableEq

/-- The `Message` structure of `messages.go`: message text plus envelope,
with the explicit `...Set` flags for the tri-state options.  Field `from`
is spelled `from_` because `from` is reserved in Lean. -/
structure Message where
  from_ : String
  to_ : Option (List String)
  cc : Option (List String)
  bcc : Option (List String)
  subject : String
  text : String
  html : String
  tags : Option (List String)
  campaigns : Option (List String)
  dkim : Bool
  deliveryTime : Option GoTime
  attachments : Option (List String)
  inlines : Option (List String)
  testMode : Bool
  tracking : Bool
  trackingClicks : Bool
  trackingOpens : Bool
  headers : Option (List (String × String))
  variables_ : Option (List (String × String))
  dkimSet : Bool
  trackingSet : Bool
  trackingClicksSet : Bool
  trackingOpensSet : Bool
deriving DecidableEq

/-- The two-field JSON response `{message, id}` decoded from the provider. -/
structure SendMessageResponse where
  message : String
  id : String
deriving DecidableEq

/-- Length of a Go slice; `len` of a nil slice is 0. -/
def optLen : Option (List String) → Nat
  | none => 0
  | some l => l.length

/-- Elements ranged over by a Go `for ... range` on a possibly-nil slice. -/
def optList : Option (List String) → List String
  | none => []
  | some l => l

/-- Go map assignment `m[k] = v` on an association-list model: replaces
the binding of `k` if present, otherwise appends it. -/
def mapInsert (k v : String) : List (String × String) → List (String × String)
  | [] => [(k, v)]
  | (k', v') :: rest => if k' == k then (k, v) :: rest else (k', v') :: mapInsert k v rest

/-- Go map lookup `m[k]` on the association-list model. -/
def mapLookup (k : String) : List (String × String) → Option String
  | [] => none
  | (k', v') :: rest => if k' == k then some v' else mapLookup k rest

/-- NewMessage returns a new e-mail message with the simplest envelope
needed to send.  Go's variadic `to ...string` receives a nil slice when
the call site passes no recipients, and a non-nil slice otherwise; all
remaining fields take their Go zero values. -/
def NewMessage (from_ subject text : String) (toArgs : List String) : Message :=
  { from_ := from_, subject := subject, text := text
    to_ := if toArgs = [] then none else some toArgs
    cc := none, bcc := none, html := "", tags := none, campaigns := none
    dkim := false, deliveryTime := none, attachments := none, inlines := none
    testMode := false, tracking := false, trackingClicks := false
    trackingOpens := false, headers := none, variables_ := none
    dkimSet := false, trackingSet := false, trackingClicksSet := false
    trackingOpensSet := false }

/-- EnableTestMode (`m.testMode = true`). -/
def EnableTestMode (m : Message) : Message :=
  { m with testMode := true }

/-- SetDKIM records the value and marks the flag. -/
def SetDKIM (m : Message) (dkim : Bool) : Message :=
  { m with dkim := dkim, dkimSet := true }

/-- SetTracking records the value and marks the flag. -/
def SetTracking (m : Message) (tracking : Bool) : Message :=
  { m with tracking := tracking, trackingSet := true }

/-- SetTrackingClicks records the value and marks the flag. -/
def SetTrackingClicks (m : Message) (trackingClicks : Bool) : Message :=
  { m with trackingClicks := trackingClicks, trackingClicksSet := true }

/-- SetTrackingOpens records the value and marks the flag. -/
def SetTrackingOpens (m : Message) (trackingOpens : Bool) : Message :=
  { m with trackingOpens := trackingOpens, trackingOpensSet := true }

/-- AddRecipient appends to `to`; an append to a nil slice yields a
non-nil one-element slice. -/
def AddRecipient (m : Message) (recipient : String) : Message :=
  { m with to_ := some (optList m.to_ ++ [recipient]) }

/-- AddCC appends to `cc`. -/
def AddCC (m : Message) (recipient : String) : Message :=
  { m with cc := some (optList m.cc ++ [recipient]) }

/-- AddBCC appends to `bcc`. -/
def AddBCC (m : Message) (recipient : String) : Message :=
  { m with bcc := some (optList m.bcc ++ [recipient]) }

/-- AddTag appends to `tags`. -/
def AddTag (m : Message) (tag : String) : Message :=
  { m with tags := some (optList m.tags ++ [tag]) }

/-- AddCampaign appends to `campaigns`. -/
def AddCampaign (m : Message) (campaign : String) : Message :=
  { m with campaigns := some (optList m.campaigns ++ [campaign]) }

/-- Caller-supplied values handed to `AddVariable`; `unsupported` stands
for a value `encoding/json` cannot represent (e.g. a channel or a
self-referential structure). -/
inductive GoValue where
  | null
  | boolean (b : Bool)
  | int (n : Int)
  | unsupported
deriving DecidableEq

/-- Model of the external `encoding/json.Marshal` on `GoValue`: JSON
text for representable values, an error for unsupported ones. -/
def jsonMarshal : GoValue → Except GoError String
  | .null => .ok "null"
  | .boolean b => .ok (if b then "true" else "false")
  | .int n => .ok (toString n)
  | .unsupported => .error "json: unsupported type"

/-- AddVariable marshals the value to JSON at the time of the call; on
error it returns the error with the message untouched, on success it
lazily initializes the `variables` map and stores the JSON text.  The
pair returned is (post-state of `*m`, returned error). -/
def AddVariable (m : Message) (k : String) (value : GoValue) : Message × Option GoError :=
  match jsonMarshal value with
  | .error err => (m, some err)
  | .ok j =>
      let vars := match m.variables_ with
        | none => []
        | some vs => vs
      ({ m with variables_ := some (mapInsert k j vars) }, none)

/-- AddHeader lazily initializes the `headers` map and stores the value. -/
def AddHeader (m : Message) (header value : String) : Message :=
  let hs := match m.headers with
    | none => []
    | some hs => hs
  { m with headers := some (mapInsert header value hs) }

/-- The body of the `for` loop of `validateStringList`: returns false on
the first empty element, otherwise accumulates `hasOne`. -/
def validateStringListLoop : List String → Bool → Bool
  | [], hasOne => hasOne
  | a :: rest, hasOne => if a == "" then false else validateStringListLoop rest (hasOne || true)

/-- validateStringList returns true if, and only if, a slice of strings
exists AND all of its elements exist, OR if the slice doesn't exist AND
it's not required to exist. -/
def validateStringList (list : Option (List String)) (requireOne : Bool) : Bool :=
  match list with
  | none => !requireOne
  | some l => validateStringListLoop l false

/-- validateMessage returns true if, and only if, a Message instance is
sufficiently initialized to send via the Mailgun interface (non-nil
receiver branch; the nil-pointer branch is `validateMessagePtr`). -/
def validateMessage (m : Message) : Bool :=
  if m.from_ == "" then false
  else if !(validateStringList m.to_ true) then false
  else if !(validateStringList m.cc false) then false
  else if !(validateStringList m.bcc false) then false
  else if !(validateStringList m.tags false) then false
  else if !(validateStringList m.campaigns false) || decide (optLen m.campaigns > 3) then false
  else if m.text == "" then false
  else true

/-- validateMessage on the `*Message` receiver: a nil receiver is
invalid. -/
def validateMessagePtr : Option Message → Bool
  | none => false
  | some m => validateMessage m

/-- yesNo translates a true/false boolean value into a yes/no setting
suitable for the Mailgun API. -/
def yesNo (b : Bool) : String :=
  if b then "yes" else "no"

/-- The multipart form-data payload: named string values in the order
`Send` adds them, and named file-upload entries. -/
structure Payload where
  values : List (String × String)
  files : List (String × String)
deriving DecidableEq

/-- The payload-construction section of `Send` (lines 148-208 of
`messages.go`), in source order: the three scalar fields, the repeated
list fields, then each conditional field. -/
def serializePayload (m : Message) : Payload :=
  { values :=
      [("from", m.from_), ("subject", m.subject), ("text", m.text)]
      ++ (optList m.to_).map (fun t => ("to", t))
      ++ (optList m.cc).map (fun c => ("cc", c))
      ++ (optList m.bcc).map (fun b => ("bcc", b))
      ++ (optList m.tags).map (fun tag => ("o:tag", tag))
      ++ (optList m.campaigns).map (fun campaign => ("o:campaign", campaign))
      ++ (if m.html == "" then [] else [("html", m.html)])
      ++ (if m.dkimSet then [("o:dkim", yesNo m.dkim)] else [])
      ++ (match m.deliveryTime with
          | some dt => [("o:deliverytime", dt.rfc1123)]
          | none => [])
      ++ (if m.testMode then [("o:testmode", "yes")] else [])
      ++ (if m.trackingSet then [("o:tracking", yesNo m.tracking)] else [])
      ++ (if m.trackingClicksSet then [("o:tracking-clicks", yesNo m.trackingClicks)] else [])
      ++ (if m.trackingOpensSet then [("o:tracking-opens", yesNo m.trackingOpens)] else [])
      ++ (match m.headers with
          | some hs => hs.map (fun hv => ("h:" ++ hv.1, hv.2))
          | none => [])
      ++ (match m.variables_ with
          | some vs => vs.map (fun vv => ("v:" ++ vv.1, vv.2))
          | none => [])
    files :=
      (match m.attachments with
       | some atts => atts.map (fun a => ("attachment", a))
       | none => [])
      ++ (match m.inlines with
          | some ins => ins.map (fun i => ("inline", i))
          | none => []) }

/-- Errors `Send` can return: the validation error
`errors.New("Message not valid")`, or an error propagated from the
transport exchange. -/
inductive SendError where
  | validation
  | transport (e : GoError)
deriving DecidableEq

/-- Everything observable about one `Send` call: the post-state of the
`*Message` argument, the payloads handed to the transport (in order),
and the returned `(mes, id, err)` triple. -/
structure SendOutcome where
  message : Message
  transmitted : List Payload
  mes : String
  id : String
  err : Option SendError
deriving DecidableEq

/-- Send: validate, serialize, perform one exchange through the
transport, and interpret the response.  `mes` and `id` stay at their
zero value `""` unless the exchange succeeds. -/
def Send (transport : Payload → Except GoError SendMessageResponse) (message : Message) :
    SendOutcome :=
  if !(validateMessage message) then
    { message := message, transmitted := [], mes := "", id := "", err := some .validation }
  else
    let payload := serializePayload message
    match transport payload with
    | .error e =>
        { message := message, transmitted := [payload], mes := "", id := ""
          err := some (.transport e) }
    | .ok response =>
        { message := message, transmitted := [payload], mes := response.message
          id := response.id, err := none }

/-- Spec-side reading of a required list: present with at least one
entry and no empty entries. -/
def SpecPresentValid (l : Option (List String)) : Prop :=
  ∃ xs, l = some xs ∧ xs ≠ [] ∧ ∀ x ∈ xs, x ≠ ""

/-- Spec-side reading of an optional list: absent, or present with at
least one entry and no empty entries. -/
def SpecOptValid (l : Option (List String)) : Prop :=
  l = none ∨ SpecPresentValid l

/-- Spec-side reading of the campaigns list: absent, or present with at
least one entry, no empty entries, and at most 3 entries. -/
def SpecCampaignsValid (l : Option (List String)) : Prop :=
  l = none ∨ ∃ xs, l = some xs ∧ xs ≠ [] ∧ (∀ x ∈ xs, x ≠ "") ∧ xs.length ≤ 3

/-- Spec-side reading of the whole validation rule set of §4.2. -/
def SpecMessageValid (m : Message) : Prop :=
  m.from_ ≠ "" ∧ SpecPresentValid m.to_ ∧ SpecOptValid m.cc ∧ SpecOptValid m.bcc ∧
    SpecOptValid m.tags ∧ SpecCampaignsValid m.campaigns ∧ m.text ≠ ""

/-- A transport stub that always succeeds, echoing a fixed decoded
response. -/
def okTransport : Payload → Except GoError SendMessageResponse :=
  fun _ => .ok { message := "Queued. Thank you.", id := "abc123" }

/-- A transport stub that always fails with a connection error. -/
def errTransport : Payload → Except GoError SendMessageResponse :=
  fun _ => .error "connection refused"

/-- The minimal round-trip message of the spec: from, subject, text and
one recipient. -/
def minimalMsg : Message := NewMessage "a@example.com" "hi" "hello" ["b@example.com"]

/-- The minimal message after `SetTrackingOpens(false)`. -/
def msgTrackingOpensOff : Message := SetTrackingOpens minimalMsg false

/-- The minimal message after `EnableTestMode()`. -/
def msgTestMode : Message := EnableTestMode minimalMsg

/-- The minimal message with its `from` field emptied. -/
def msgEmptyFrom : Message := { minimalMsg with from_ := "" }

/-- The minimal message with four non-empty campaigns. -/
def msgFourCampaigns : Message :=
  { minimalMsg with campaigns := some ["c1", "c2", "c3", "c4"] }

theorem validateStringListLoop_eq_true (l : List String) (h : Bool) :
    validateStringListLoop l h = true ↔
      ((h = true ∨ l ≠ []) ∧ ∀ x ∈ l, x ≠ "") := by
  induction l generalizing h with
  | nil => simp [validateStringListLoop]
  | cons a rest ih =>
    by_cases ha : a = ""
    · simp [validateStringListLoop, ha]
    · simp only [validateStringListLoop, beq_iff_eq, if_neg ha, ih]
      simp [ha]

theorem validateStringList_some (l : List String) (req : Bool) :
    validateStringList (some l) req = true ↔ (l ≠ [] ∧ ∀ x ∈ l, x ≠ "") := by
  simp [validateStringList, validateStringListLoop_eq_true]

theorem specPresentValid_iff (l : Option (List String)) :
    SpecPresentValid l ↔ validateStringList l true = true := by
  cases l with
  | none => simp [SpecPresentValid, validateStringList]
  | some xs => simp [SpecPresentValid, validateStringList_some]

theorem specOptValid_iff (l : Option (List String)) :
    SpecOptValid l ↔ validateStringList l false = true := by
  cases l with
  | none => simp [SpecOptValid, SpecPresentValid, validateStringList]
  | some xs => simp [SpecOptValid, SpecPresentValid, validateStringList_some]

theorem specCampaignsValid_iff (l : Option (List String)) :
    SpecCampaignsValid l ↔ (validateStringList l false = true ∧ optLen l ≤ 3) := by
  cases l with
  | none => simp [SpecCampaignsValid, validateStringList, optLen]
  | some xs =>
    simp only [SpecCampaignsValid, validateStringList_some, optLen, Option.some.injEq]
    constructor
    · rintro (h | ⟨xs', hxs, hne, hall, hlen⟩)
      · exact absurd h (by simp)
      · cases hxs
        exact ⟨⟨hne, hall⟩, hlen⟩
    · rintro ⟨⟨hne, hall⟩, hlen⟩
      exact Or.inr ⟨xs, rfl, hne, hall, hlen⟩

theorem validateMessage_eq_true_iff (m : Message) :
    validateMessage m = true ↔
      (m.from_ ≠ "" ∧ validateStringList m.to_ true = true ∧
       validateStringList m.cc false = true ∧ validateStringList m.bcc false = true ∧
       validateStringList m.tags false = true ∧
       (validateStringList m.campaigns false = true ∧ optLen m.campaigns ≤ 3) ∧
       m.text ≠ "") := by
  unfold validateMessage
  split_ifs with h1 h2 h3 h4 h5 h6 h7 <;>
    simp_all [Bool.not_eq_true, Nat.not_lt, Bool.or_eq_true]
  intro hv hlen
  rcases h6 with h | h
  · simp [hv] at h
  · omega

theorem mem_if_singleton {α : Type} (a x : α) (c : Prop) [Decidable c] :
    (a ∈ if c then [x] else ([] : List α)) ↔ c ∧ a = x := by
  split <;> simp_all

theorem mem_ite_nil {α : Type} (a x : α) (c : Prop) [Decidable c] :
    (a ∈ if c then ([] : List α) else [x]) ↔ ¬c ∧ a = x := by
  split <;> simp_all

theorem prefix_h_ne (k t : String) (h : t.data.head? ≠ some 'h') : ("h:" ++ k) ≠ t := by
  intro he
  apply h
  have hd := congrArg String.data he
  rw [String.data_append] at hd
  rw [← hd]
  simp

theorem prefix_v_ne (k t : String) (h : t.data.head? ≠ some 'v') : ("v:" ++ k) ≠ t := by
  intro he
  apply h
  have hd := congrArg String.data he
  rw [String.data_append] at hd
  rw [← hd]
  simp

theorem mem_values_name (m : Message) (name v : String)
    (h : (name, v) ∈ (serializePayload m).values) :
    name = "from" ∨ name = "subject" ∨ name = "text" ∨ name = "to" ∨ name = "cc" ∨
      name = "bcc" ∨ name = "o:tag" ∨ name = "o:campaign" ∨ name = "html" ∨
      (name = "o:dkim" ∧ m.dkimSet = true) ∨ name = "o:deliverytime" ∨
      (name = "o:testmode" ∧ m.testMode = true ∧ v = "yes") ∨
      (name = "o:tracking" ∧ m.trackingSet = true) ∨
      (name = "o:tracking-clicks" ∧ m.trackingClicksSet = true) ∨
      (name = "o:tracking-opens" ∧ m.trackingOpensSet = true ∧ v = yesNo m.trackingOpens) ∨
      (∃ k, name = "h:" ++ k) ∨ (∃ k, name = "v:" ++ k) := by
  obtain ⟨f, tto, tcc, tbcc, subj, txt, thtml, ttags, camps, tdkim, dt, atts, ins, tm, tr,
    trc, tro, hs, vars, ds, ts, tcs, tos⟩ := m
  cases dt <;> cases hs <;> cases vars <;>
    · simp only [serializePayload, List.mem_append, List.mem_map, List.mem_cons,
        List.not_mem_nil, or_false, mem_if_singleton, mem_ite_nil, Prod.mk.injEq,
        List.mem_singleton] at h
      aesop

theorem validateMessage_false_of_from_empty (m : Message) (h : m.from_ = "") :
    validateMessage m = false := by
  cases hb : validateMessage m
  · rfl
  · exact absurd h ((validateMessage_eq_true_iff m).mp hb).1

theorem validateMessage_false_of_campaigns_four (m : Message) (xs : List String)
    (h : m.campaigns = some xs) (hlen : xs.length = 4) : validateMessage m = false := by
  cases hb : validateMessage m
  · rfl
  · exfalso
    have h3 := ((validateMessage_eq_true_iff m).mp hb).2.2.2.2.2.1.2
    rw [h] at h3
    simp only [optLen] at h3
    omega

/-- C1: validateMessage returns true if and only if `from` is non-empty,
`to` is present with at least one entry and no empty entries, each of
`cc`, `bcc` and `tags` is absent or present with at least one entry and
no empty entries, `campaigns` is absent or present with at least one
entry, no empty entries and at most 3 entries, and `text` is non-empty;
a present-but-empty list is invalid even where absence is allowed. -/
theorem validateMessage_iff_spec (m : Message) :
    validateMessage m = true ↔ SpecMessageValid m := by
  rw [validateMessage_eq_true_iff]
  simp only [SpecMessageValid, specPresentValid_iff, specOptValid_iff, specCampaignsValid_iff]

/-- C2: for every Message whose `from` field is empty, Send returns the
validation error, hands no payload to the transport, and leaves both the
status message and the message id empty; the outcome is independent of
the transport. -/
theorem send_empty_from_validation (t : Payload → Except GoError SendMessageResponse)
    (m : Message) (h : m.from_ = "") :
    Send t m = { message := m, transmitted := [], mes := "", id := ""
                 err := some SendError.validation } := by
  simp [Send, validateMessage_false_of_from_empty m h]

/-- Witness for C2 at a concrete message and transport. -/
theorem send_empty_from_validation_witness :
    Send okTransport msgEmptyFrom = { message := msgEmptyFrom, transmitted := [], mes := ""
                                      id := "", err := some SendError.validation } :=
  send_empty_from_validation okTransport msgEmptyFrom rfl

/-- C3: for every Message whose campaigns list has 4 entries (whatever
the entries and the other fields are), Send returns the validation error
without transmitting. -/
theorem send_four_campaigns_validation (t : Payload → Except GoError SendMessageResponse)
    (m : Message) (xs : List String) (h : m.campaigns = some xs) (hlen : xs.length = 4) :
    Send t m = { message := m, transmitted := [], mes := "", id := ""
                 err := some SendError.validation } := by
  simp [Send, validateMessage_false_of_campaigns_four m xs h hlen]

/-- Witness for C3 at a concrete message with four non-empty campaigns,
all other fields valid. -/
theorem send_four_campaigns_validation_witness :
    validateMessage { msgFourCampaigns with campaigns := none } = true ∧
    Send okTransport msgFourCampaigns =
      { message := msgFourCampaigns, transmitted := [], mes := "", id := ""
        err := some SendError.validation } :=
  ⟨by decide, send_four_campaigns_validation okTransport msgFourCampaigns
    ["c1", "c2", "c3", "c4"] rfl rfl⟩

/-- C9: Send leaves the Message unchanged whatever the transport does:
the post-state of the `*Message` argument equals its input state, so the
same Message may be sent again. -/
theorem send_preserves_message (t : Payload → Except GoError SendMessageResponse)
    (m : Message) : (Send t m).message = m := by
  unfold Send
  split
  · rfl
  · cases ht : t (serializePayload m) <;> simp [ht]

/-- C8: for every valid Message, a failing exchange makes Send return
that transport error with status and id left empty, and a successful
exchange makes Send return the decoded message and id strings with no
error. -/
theorem send_transport_interpretation (t : Payload → Except GoError SendMessageResponse)
    (m : Message) (hvalid : validateMessage m = true) :
    (∀ e, t (serializePayload m) = .error e →
        Send t m = { message := m, transmitted := [serializePayload m], mes := "", id := ""
                     err := some (SendError.transport e) }) ∧
    (∀ r, t (serializePayload m) = .ok r →
        Send t m = { message := m, transmitted := [serializePayload m], mes := r.message
                     id := r.id, err := none }) := by
  constructor <;> intro x hx <;> simp [Send, hvalid, hx]

/-- Witness for C8: one succeeding and one failing exchange on the
minimal valid message. -/
theorem send_transport_interpretation_witness :
    Send okTransport minimalMsg =
      { message := minimalMsg, transmitted := [serializePayload minimalMsg]
        mes := "Queued. Thank you.", id := "abc123", err := none } ∧
    Send errTransport minimalMsg =
      { message := minimalMsg, transmitted := [serializePayload minimalMsg]
        mes := "", id := "", err := some (SendError.transport "connection refused") } :=
  ⟨(send_transport_interpretation okTransport minimalMsg (by decide)).2
      { message := "Queued. Thank you.", id := "abc123" } rfl,
   (send_transport_interpretation errTransport minimalMsg (by decide)).1
      "connection refused" rfl⟩

/-- C4: on every valid Message whose last tracking-opens setting was
`SetTrackingOpens(false)`, the serialized payload carries the field
`o:tracking-opens` with value `"no"`; on every valid Message whose
tracking-opens setter was never called the payload has no
`o:tracking-opens` field at all, so the two payloads are
distinguishable. -/
theorem serialize_trackingOpens_tristate (m : Message) (hvalid : validateMessage m = true) :
    (m.trackingOpensSet = true → m.trackingOpens = false →
        ("o:tracking-opens", "no") ∈ (serializePayload m).values) ∧
    (m.trackingOpensSet = false →
        ∀ v, ("o:tracking-opens", v) ∉ (serializePayload m).values) := by
  constructor
  · intro hset hval
    simp [serializePayload, hset, hval, yesNo]
  · intro hset v hmem
    rcases mem_values_name m _ _ hmem with
      h | h | h | h | h | h | h | h | h | ⟨h, _⟩ | h | ⟨h, _⟩ | ⟨h, _⟩ | ⟨h, _⟩ |
      ⟨_, hset', _⟩ | ⟨k, hk⟩ | ⟨k, hk⟩
    · exact absurd h (by decide)
    · exact absurd h (by decide)
    · exact absurd h (by decide)
    · exact absurd h (by decide)
    · exact absurd h (by decide)
    · exact absurd h (by decide)
    · exact absurd h (by decide)
    · exact absurd h (by decide)
    · exact absurd h (by decide)
    · exact absurd h (by decide)
    · exact absurd h (by decide)
    · exact absurd h (by decide)
    · exact absurd h (by decide)
    · exact absurd h (by decide)
    · exact absurd hset' (by simp [hset])
    · exact prefix_h_ne k _ (by decide) hk.symm
    · exact prefix_v_ne k _ (by decide) hk.symm

/-- Witness for C4: the minimal message after `SetTrackingOpens(false)`
emits the field, the untouched minimal message omits it. -/
theorem serialize_trackingOpens_tristate_witness :
    ("o:tracking-opens", "no") ∈ (serializePayload msgTrackingOpensOff).values ∧
    ("o:tracking-opens", "no") ∉ (serializePayload minimalMsg).values :=
  ⟨(serialize_trackingOpens_tristate msgTrackingOpensOff (by decide)).1 rfl rfl,
   (serialize_trackingOpens_tristate minimalMsg (by decide)).2 rfl "no"⟩

/-- C5: on every valid Message the serialized payload carries
`o:testmode` with the fixed value `"yes"` exactly when test mode is
true; when test mode is false the field is absent, and no `"no"` value
is ever emitted for it. -/
theorem serialize_testmode_yes_only (m : Message) (hvalid : validateMessage m = true) :
    (m.testMode = true →
        ("o:testmode", "yes") ∈ (serializePayload m).values ∧
        ∀ v, ("o:testmode", v) ∈ (serializePayload m).values → v = "yes") ∧
    (m.testMode = false → ∀ v, ("o:testmode", v) ∉ (serializePayload m).values) := by
  constructor
  · intro htm
    constructor
    · simp [serializePayload, htm]
    · intro v hmem
      rcases mem_values_name m _ _ hmem with
        h | h | h | h | h | h | h | h | h | ⟨h, _⟩ | h | ⟨_, _, hv⟩ | ⟨h, _⟩ | ⟨h, _⟩ |
        ⟨h, _⟩ | ⟨k, hk⟩ | ⟨k, hk⟩
      · exact absurd h (by decide)
      · exact absurd h (by decide)
      · exact absurd h (by decide)
      · exact absurd h (by decide)
      · exact absurd h (by decide)
      · exact absurd h (by decide)
      · exact absurd h (by decide)
      · exact absurd h (by decide)
      · exact absurd h (by decide)
      · exact absurd h (by decide)
      · exact absurd h (by decide)
      · exact hv
      · exact absurd h (by decide)
      · exact absurd h (by decide)
      · exact absurd h (by decide)
      · exact absurd hk.symm (prefix_h_ne k _ (by decide))
      · exact absurd hk.symm (prefix_v_ne k _ (by decide))
  · intro htm v hmem
    rcases mem_values_name m _ _ hmem with
      h | h | h | h | h | h | h | h | h | ⟨h, _⟩ | h | ⟨_, htm', _⟩ | ⟨h, _⟩ | ⟨h, _⟩ |
      ⟨h, _⟩ | ⟨k, hk⟩ | ⟨k, hk⟩
    · exact absurd h (by decide)
    · exact absurd h (by decide)
    · exact absurd h (by decide)
    · exact absurd h (by decide)
    · exact absurd h (by decide)
    · exact absurd h (by decide)
    · exact absurd h (by decide)
    · exact absurd h (by decide)
    · exact absurd h (by decide)
    · exact absurd h (by decide)
    · exact absurd h (by decide)
    · exact absurd htm' (by simp [htm])
    · exact absurd h (by decide)
    · exact absurd h (by decide)
    · exact absurd h (by decide)
    · exact absurd hk.symm (prefix_h_ne k _ (by decide))
    · exact absurd hk.symm (prefix_v_ne k _ (by decide))

/-- Witness for C5: the minimal message in test mode emits
`o:testmode = "yes"`, the untouched minimal message omits the field. -/
theorem serialize_testmode_yes_only_witness :
    ("o:testmode", "yes") ∈ (serializePayload msgTestMode).values ∧
    ("o:testmode", "no") ∉ (serializePayload msgTestMode).values ∧
    ("o:testmode", "yes") ∉ (serializePayload minimalMsg).values := by
  refine ⟨((serialize_testmode_yes_only msgTestMode (by decide)).1 rfl).1, ?_, ?_⟩
  · intro hmem
    have := ((serialize_testmode_yes_only msgTestMode (by decide)).1 rfl).2 "no" hmem
    simp at this
  · exact (serialize_testmode_yes_only minimalMsg (by decide)).2 rfl "yes"

theorem mapLookup_mapInsert (k j : String) (l : List (String × String)) :
    mapLookup k (mapInsert k j l) = some j := by
  induction l with
  | nil => simp [mapInsert, mapLookup]
  | cons p rest ih =>
    obtain ⟨k', v'⟩ := p
    by_cases hk : k' == k
    · simp [mapInsert, mapLookup, hk]
    · simp [mapInsert, mapLookup, hk, ih]

/-- C7: the Message constructed with from `a@example.com`, subject `hi`,
text `hello` and recipient `b@example.com` validates, and serializes to
exactly the four wire values `from`, `subject`, `text`, `to` with no
files and no `o:tracking`, `o:tracking-clicks`, `o:tracking-opens`,
`o:dkim` or `o:testmode` field. -/
theorem newMessage_minimal_roundtrip :
    validateMessage minimalMsg = true ∧
    (serializePayload minimalMsg).values =
      [("from", "a@example.com"), ("subject", "hi"), ("text", "hello"),
       ("to", "b@example.com")] ∧
    (serializePayload minimalMsg).files = [] ∧
    (∀ v, ("o:tracking", v) ∉ (serializePayload minimalMsg).values) ∧
    (∀ v, ("o:tracking-clicks", v) ∉ (serializePayload minimalMsg).values) ∧
    (∀ v, ("o:tracking-opens", v) ∉ (serializePayload minimalMsg).values) ∧
    (∀ v, ("o:dkim", v) ∉ (serializePayload minimalMsg).values) ∧
    (∀ v, ("o:testmode", v) ∉ (serializePayload minimalMsg).values) := by
  have hvals : (serializePayload minimalMsg).values =
      [("from", "a@example.com"), ("subject", "hi"), ("text", "hello"),
       ("to", "b@example.com")] := by decide
  refine ⟨by decide, hvals, by decide, ?_, ?_, ?_, ?_, ?_⟩ <;>
    · intro v hmem
      rw [hvals] at hmem
      simp at hmem

/-- C6: AddVariable serializes the value to JSON at the time of the
call: a value the JSON encoder rejects makes it return that error
immediately, and on success it stores the JSON text representation of
the value under the variable name and returns no error. -/
theorem addVariable_marshals_at_add (m : Message) (k : String) (v : GoValue) :
    (∀ e, jsonMarshal v = .error e → AddVariable m k v = (m, some e)) ∧
    (∀ j, jsonMarshal v = .ok j →
        (AddVariable m k v).2 = none ∧
        mapLookup k ((AddVariable m k v).1.variables_.getD []) = some j) := by
  constructor
  · intro e he
    simp [AddVariable, he]
  · intro j hj
    simp [AddVariable, hj, mapLookup_mapInsert]

/-- Witness for C6: an unserializable value errors immediately, an
integer value is stored as its JSON text `"42"`. -/
theorem addVariable_marshals_at_add_witness :
    AddVariable minimalMsg "k" GoValue.unsupported =
      (minimalMsg, some "json: unsupported type") ∧
    (AddVariable minimalMsg "k" (GoValue.int 42)).2 = none ∧
    mapLookup "k" ((AddVariable minimalMsg "k" (GoValue.int 42)).1.variables_.getD []) =
      some "42" :=
  ⟨(addVariable_marshals_at_add minimalMsg "k" GoValue.unsupported).1
      "json: unsupported type" rfl,
   (addVariable_marshals_at_add minimalMsg "k" (GoValue.int 42)).2 "42" rfl⟩

/-- C10: when the JSON serialization of the value fails, AddVariable
leaves the Message completely unchanged; in particular the variables
mapping stays uninitialized if it did not already exist. -/
theorem addVariable_error_frame (m : Message) (k : String) (v : GoValue) (e : GoError)
    (h : jsonMarshal v = .error e) :
    (AddVariable m k v).1 = m := by
  simp [AddVariable, h]

/-- Witness for C10: the failed add leaves the minimal message intact,
with its variables mapping still nil. -/
theorem addVariable_error_frame_witness :
    (AddVariable minimalMsg "k2" GoValue.unsupported).1 = minimalMsg ∧
    (AddVariable minimalMsg "k2" GoValue.unsupported).1.variables_ = none :=
  ⟨addVariable_error_frame minimalMsg "k2" GoValue.unsupported "json: unsupported type" rfl,
   by decide⟩
